import Mathlib

/-!
Verification of the crossword NEAR contract (EkaterinaAbramova/crossword_nft).

The repository contains two variants of the contract:
* `src/contract/src/lib.rs` — `guess_solution` hashes the candidate with
  SHA-256, hex-encodes it, and compares with the stored string;
* `src/src/lib.rs` — `guess_solution` compares the raw candidate string with
  the stored string.

We embed both variants as pure functions on an explicit state record, with
the NEAR host functions `env::sha256` and `hex::encode` modelled by an
executable SHA-256 over byte lists (`Nat` with explicit `% 2^32`) and a
lowercase hex encoder.
-/

namespace CrosswordNFT

/-! ### SHA-256 (model of `near_sdk::env::sha256`)

Standard FIPS 180-4 SHA-256 over a list of bytes (each a `Nat < 256`),
all word arithmetic done in `Nat` with explicit reduction mod `2^32`. -/

def M32 : Nat := 4294967296

def add32 (a b : Nat) : Nat := (a + b) % M32

def rotr (n x : Nat) : Nat := ((x >>> n) ||| (x <<< (32 - n))) % M32

def bigSigma0 (x : Nat) : Nat := (rotr 2 x) ^^^ (rotr 13 x) ^^^ (rotr 22 x)

def bigSigma1 (x : Nat) : Nat := (rotr 6 x) ^^^ (rotr 11 x) ^^^ (rotr 25 x)

def smallSigma0 (x : Nat) : Nat := (rotr 7 x) ^^^ (rotr 18 x) ^^^ (x >>> 3)

def smallSigma1 (x : Nat) : Nat := (rotr 17 x) ^^^ (rotr 19 x) ^^^ (x >>> 10)

def shaK : List Nat :=
  [1116352408, 1899447441, 3049323471, 3921009573, 961987163,
   1508970993, 2453635748, 2870763221, 3624381080, 310598401,
   607225278, 1426881987, 1925078388, 2162078206, 2614888103,
   3248222580, 3835390401, 4022224774, 264347078, 604807628,
   770255983, 1249150122, 1555081692, 1996064986, 2554220882,
   2821834349, 2952996808, 3210313671, 3336571891, 3584528711,
   113926993, 338241895, 666307205, 773529912, 1294757372,
   1396182291, 1695183700, 1986661051, 2177026350, 2456956037,
   2730485921, 2820302411, 3259730800, 3345764771, 3516065817,
   3600352804, 4094571909, 275423344, 430227734, 506948616,
   659060556, 883997877, 958139571, 1322822218, 1537002063,
   1747873779, 1955562222, 2024104815, 2227730452, 2361852424,
   2428436474, 2756734187, 3204031479, 3329325298]

def shaH0 : List Nat :=
  [1779033703, 3144134277, 1013904242, 2773480762,
   1359893119, 2600822924, 528734635, 1541459225]

/-- Message-schedule extension: `rw` holds the schedule so far in reverse
(most recent word first); each step prepends one new word. -/
def extendSchedule : Nat → List Nat → List Nat
  | 0, rw => rw
  | n + 1, rw =>
      let w := add32 (add32 (smallSigma1 (rw.getD 1 0)) (rw.getD 6 0))
                     (add32 (smallSigma0 (rw.getD 14 0)) (rw.getD 15 0))
      extendSchedule n (w :: rw)

/-- The 64-word message schedule of a 16-word block. -/
def schedule (block : List Nat) : List Nat :=
  (extendSchedule 48 block.reverse).reverse

/-- One round of the SHA-256 compression function. -/
def shaRound (st : List Nat) (kw : Nat × Nat) : List Nat :=
  match st with
  | [a, b, c, d, e, f, g, h] =>
      let t1 := add32 (add32 (add32 h (bigSigma1 e))
                             (add32 ((e &&& f) ^^^ ((M32 - 1 - e) &&& g)) kw.1))
                      kw.2
      let t2 := add32 (bigSigma0 a) ((a &&& b) ^^^ (a &&& c) ^^^ (b &&& c))
      [add32 t1 t2, a, b, c, add32 d t1, e, f, g]
  | st => st

/-- Process one 16-word block, updating the 8-word chaining state. -/
def processBlock (hs : List Nat) (block : List Nat) : List Nat :=
  let ws := schedule block
  let st := ws.zip shaK |>.foldl shaRound hs
  (hs.zip st).map fun p => add32 p.1 p.2

/-- Big-endian byte decomposition, `k` bytes. -/
def beBytes : Nat → Nat → List Nat
  | 0, _ => []
  | k + 1, n => (n >>> (8 * k)) % 256 :: beBytes k n

/-- SHA-256 padding: append `0x80`, zero bytes to 56 mod 64, and the 64-bit
big-endian bit length. -/
def padMessage (msg : List Nat) : List Nat :=
  let padZeros := (119 - msg.length % 64) % 64
  msg ++ 0x80 :: List.replicate padZeros 0 ++ beBytes 8 (8 * msg.length)

/-- Group a byte list into big-endian 32-bit words (length assumed `≡ 0 [MOD 4]`). -/
def toWords : List Nat → List Nat
  | a :: b :: c :: d :: rest => (((a * 256 + b) * 256 + c) * 256 + d) :: toWords rest
  | _ => []

/-- Split a word list into 16-word blocks (fuel-driven so it reduces in the kernel). -/
def toBlocksF : Nat → List Nat → List (List Nat)
  | 0, _ => []
  | _, [] => []
  | fuel + 1, w :: rest => (w :: rest.take 15) :: toBlocksF fuel (rest.drop 15)

def toBlocks (ws : List Nat) : List (List Nat) := toBlocksF ws.length ws

/-- SHA-256 digest of a byte list, as 32 bytes. -/
def sha256 (msg : List Nat) : List Nat :=
  let hs := (toBlocks (toWords (padMessage msg))).foldl processBlock shaH0
  hs.flatMap (beBytes 4)

/-! ### Hex encoding (model of `hex::encode`) and UTF-8 bytes
(model of `str::as_bytes`) -/

def hexDigit (n : Nat) : Char :=
  if n < 10 then Char.ofNat (48 + n) else Char.ofNat (87 + n)

def hexEncode (bs : List Nat) : String :=
  ⟨bs.flatMap fun b => [hexDigit (b / 16), hexDigit (b % 16)]⟩

/-- UTF-8 encoding of one code point. -/
def utf8EncodeChar (c : Nat) : List Nat :=
  if c < 0x80 then [c]
  else if c < 0x800 then
    [0xc0 ||| (c >>> 6), 0x80 ||| (c &&& 0x3f)]
  else if c < 0x10000 then
    [0xe0 ||| (c >>> 12), 0x80 ||| ((c >>> 6) &&& 0x3f), 0x80 ||| (c &&& 0x3f)]
  else
    [0xf0 ||| (c >>> 18), 0x80 ||| ((c >>> 12) &&& 0x3f),
     0x80 ||| ((c >>> 6) &&& 0x3f), 0x80 ||| (c &&& 0x3f)]

/-- The UTF-8 bytes of a string (Rust's `as_bytes`). -/
def strBytes (s : String) : List Nat :=
  s.data.flatMap fun c => utf8EncodeChar c.toNat

/-- Lowercase hex of the SHA-256 of a string: `hex::encode(env::sha256(s.as_bytes()))`. -/
def sha256hex (s : String) : String := hexEncode (sha256 (strBytes s))

/-! ### Contract state

Both variants declare the same state struct:
`pub struct Contract { crossword_solution: String }` with `derive(Default)`. -/

structure Contract where
  crossword_solution : String
deriving DecidableEq

/-- Default-constructed state (`#[derive(Default)]`): the empty string. -/
def defaultContract : Contract := ⟨""⟩

/-! ### Variant `src/contract/src/lib.rs` (hash-comparing) -/

namespace Hashed

/-- The `#[init]` constructor `new(solution: String)`. -/
def new (solution : String) : Contract := ⟨solution⟩

/-- The view method `get_solution(&self) -> String` (returns a clone of the
stored field). -/
def get_solution (c : Contract) : String := c.crossword_solution

/-- Observables of one `guess_solution(&mut self, ...)` call: the state after
the call, the returned `bool`, and the string passed to `env::log_str`. -/
structure GuessResult where
  state : Contract
  matched : Bool
  log : String
deriving DecidableEq

/-- `guess_solution(&mut self, solution: String) -> bool`: hex-encode the
SHA-256 of the candidate, compare with the stored string, log a tag, return
the verdict. -/
def guess_solution (c : Contract) (solution : String) : GuessResult :=
  let hashed_input_hex := sha256hex solution
  if hashed_input_hex = c.crossword_solution then
    ⟨c, true, "You guessed right!"⟩
  else
    ⟨c, false, "Try again."⟩

end Hashed

/-! ### Variant `src/src/lib.rs` (plaintext-comparing) -/

namespace Plain

/-- The `#[init]` constructor `new(solution: String)`. -/
def new (solution : String) : Contract := ⟨solution⟩

/-- `guess_solution(&mut self, solution: String)` of the plaintext variant:
returns no value; observables are the post-state and the logged string. -/
def guess_solution (c : Contract) (solution : String) : Contract × String :=
  if solution = c.crossword_solution then
    (c, "You guessed right!")
  else
    (c, "Try again.")

end Plain

/-- Modelled from the spec: the repository's `src/` has no `set_commitment`
operation (only `new`, `get_solution` and `guess_solution` exist in the code);
§4.1 of the design document describes
`set_commitment(state: &mut ContractState, commitment: Commitment)` as
unconditionally overwriting the stored commitment, with no other effect. -/
def set_commitment (c : Contract) (commitment : String) : Contract :=
  { c with crossword_solution := commitment }

/-! ### Helper lemmas -/

/-- `guess_solution` of the hash variant never writes the state field. -/
theorem hashed_guess_state_eq (st : Contract) (s : String) :
    (Hashed.guess_solution st s).state = st := by
  unfold Hashed.guess_solution
  dsimp only
  split <;> rfl

/-- `guess_solution` of the plaintext variant never writes the state field. -/
theorem plain_guess_state_eq (st : Contract) (s : String) :
    (Plain.guess_solution st s).1 = st := by
  unfold Plain.guess_solution
  split <;> rfl

set_option maxRecDepth 1000000

/-! ### Claims -/

/-- C1: Exact-match law: for every state and candidate `s`, `guess_solution`
(in `src/contract/src/lib.rs`) returns `matched = true` when the stored
commitment equals the lowercase hex of `sha256(s)`; and independently, for
every state (its commitment need not be a hash image) and every candidate
`s'` whose `hex(sha256(s'))` differs from the stored commitment, it returns
`matched = false`. The two halves are stated over separate states `st` and
`st'` so neither constrains the other. -/
theorem guess_exact_match_law (st st' : Contract) (s s' : String)
    (hs : st.crossword_solution = sha256hex s)
    (hs' : sha256hex s' ≠ st'.crossword_solution) :
    (Hashed.guess_solution st s).matched = true ∧
    (Hashed.guess_solution st' s').matched = false := by
  unfold Hashed.guess_solution
  constructor
  · rw [if_pos hs.symm]
  · rw [if_neg hs']

/-- Witness for C1: the true half at a hash-image commitment, the false half
at the default state, whose empty commitment is not a hash image. -/
theorem guess_exact_match_law_witness :
    (Hashed.guess_solution (Hashed.new (sha256hex "abc")) "abc").matched = true ∧
    (Hashed.guess_solution defaultContract "").matched = false :=
  guess_exact_match_law (Hashed.new (sha256hex "abc")) defaultContract "abc" ""
    rfl (by decide)

/-- C2: Concrete scenario 1: with the commitment
`69c2feb084439956193f4c21936025f14a5a5a78979d67ae34762e18a7206a0f` (which is
`hex(sha256("near nomicon ref finance"))`), guessing `"wrong answer here"`
gives `matched = false` with log `"Try again."` and guessing
`"near nomicon ref finance"` gives `matched = true` with log
`"You guessed right!"`. -/
theorem concrete_scenario_1 :
    sha256hex "near nomicon ref finance" =
      "69c2feb084439956193f4c21936025f14a5a5a78979d67ae34762e18a7206a0f" ∧
    (Hashed.guess_solution
        (Hashed.new "69c2feb084439956193f4c21936025f14a5a5a78979d67ae34762e18a7206a0f")
        "wrong answer here") =
      ⟨Hashed.new "69c2feb084439956193f4c21936025f14a5a5a78979d67ae34762e18a7206a0f",
        false, "Try again."⟩ ∧
    (Hashed.guess_solution
        (Hashed.new "69c2feb084439956193f4c21936025f14a5a5a78979d67ae34762e18a7206a0f")
        "near nomicon ref finance") =
      ⟨Hashed.new "69c2feb084439956193f4c21936025f14a5a5a78979d67ae34762e18a7206a0f",
        true, "You guessed right!"⟩ := by
  refine ⟨by decide, by decide, by decide⟩

/-- C3: The two variants implement different match predicates — the plaintext
variant matches exactly when the raw candidate equals the stored value, the
hash variant exactly when `hex(sha256(candidate))` equals the stored value —
and on state `⟨"hello"⟩` with candidate `"hello"` they emit different tags. -/
theorem variants_not_equivalent :
    (∀ (st : Contract) (s : String),
        (Plain.guess_solution st s).2 = "You guessed right!" ↔
          s = st.crossword_solution) ∧
    (∀ (st : Contract) (s : String),
        (Hashed.guess_solution st s).log = "You guessed right!" ↔
          sha256hex s = st.crossword_solution) ∧
    (Plain.guess_solution (Plain.new "hello") "hello").2 ≠
      (Hashed.guess_solution (Hashed.new "hello") "hello").log := by
  refine ⟨fun st s => ?_, fun st s => ?_, by decide⟩
  · unfold Plain.guess_solution
    split <;> simp_all
  · unfold Hashed.guess_solution
    dsimp only
    split <;> simp_all

/-- C4: `set_commitment` (present only in the spec, modelled from it)
unconditionally overwrites the stored commitment with last-write-wins
semantics: after two writes in sequence, `get_commitment` (`get_solution`)
returns the most recently written value each time, with no merge. -/
theorem set_commitment_last_write_wins (st : Contract) (c1 c2 : String) :
    Hashed.get_solution (set_commitment st c1) = c1 ∧
    Hashed.get_solution (set_commitment (set_commitment st c1) c2) = c2 :=
  ⟨rfl, rfl⟩

/-- C5: Concrete scenario 2: on the default state (empty commitment),
guessing the empty string yields `matched = false` with log `"Try again."`,
because `hex(sha256(""))` is the fixed non-empty constant
`e3b0c44298fc1c149afbf4c8996fb92427ae41e4649b934ca495991b7852b855`; the call
is a total computation producing a non-match, not an error. -/
theorem concrete_scenario_2 :
    sha256hex "" =
      "e3b0c44298fc1c149afbf4c8996fb92427ae41e4649b934ca495991b7852b855" ∧
    sha256hex "" ≠ "" ∧
    (Hashed.guess_solution defaultContract "") =
      ⟨defaultContract, false, "Try again."⟩ := by
  refine ⟨by decide, by decide, by decide⟩

/-- C6: Frame property: `guess_solution` leaves the stored state (the whole
`Contract`, hence the `crossword_solution` field) unchanged in both variants,
even though it is declared on `&mut self`. -/
theorem guess_frame_property (st : Contract) (s : String) :
    (Hashed.guess_solution st s).state = st ∧
    (Plain.guess_solution st s).1 = st :=
  ⟨hashed_guess_state_eq st s, plain_guess_state_eq st s⟩

/-- C7: Determinism: two `guess_solution` calls with the same candidate, the
second run on the state returned by the first, produce identical verdicts and
identical tags. -/
theorem guess_deterministic (st : Contract) (s : String) :
    (Hashed.guess_solution (Hashed.guess_solution st s).state s).matched =
      (Hashed.guess_solution st s).matched ∧
    (Hashed.guess_solution (Hashed.guess_solution st s).state s).log =
      (Hashed.guess_solution st s).log := by
  rw [hashed_guess_state_eq]
  exact ⟨rfl, rfl⟩

/-- C8: Non-invertibility (behavioral): the observable outputs of
`guess_solution` are exactly a boolean verdict paired with one of the two
fixed tags — `matched = true` with `"You guessed right!"` or `matched = false`
with `"Try again."` — and nothing else. -/
theorem guess_outputs_fixed (st : Contract) (s : String) :
    ((Hashed.guess_solution st s).matched = true ∧
      (Hashed.guess_solution st s).log = "You guessed right!") ∨
    ((Hashed.guess_solution st s).matched = false ∧
      (Hashed.guess_solution st s).log = "Try again.") := by
  unfold Hashed.guess_solution
  dsimp only
  split
  · exact Or.inl ⟨rfl, rfl⟩
  · exact Or.inr ⟨rfl, rfl⟩

/-- C9: `get_solution` is a pure read: it returns the commitment stored by
`new`, and its value is unchanged by intervening `guess_solution` calls (the
only non-write operations). -/
theorem get_solution_pure_read (c : String) (st : Contract) (s : String) :
    Hashed.get_solution (Hashed.new c) = c ∧
    Hashed.get_solution (Hashed.guess_solution st s).state =
      Hashed.get_solution st := by
  refine ⟨rfl, ?_⟩
  rw [hashed_guess_state_eq]

/-- C10: In the plaintext variant, guessing the stored value itself always
wins: for every `c`, `guess_solution` on `new c` with candidate `c` logs
`"You guessed right!"`; in particular the publicly stored hex digest submitted
verbatim wins. -/
theorem plain_stored_value_wins (c : String) :
    (Plain.guess_solution (Plain.new c) c).2 = "You guessed right!" := by
  unfold Plain.guess_solution Plain.new
  simp

end CrosswordNFT
